import Mathlib

/-!
Shallow embedding of the scroll-synchronized section-navigation core of the
clinical documentation form (source: src/unnamed/part_001, `App`), together
with the derived-field calculators (BMI, age normalization).

The React component state (`useState` hooks plus the `isManualScrolling` ref)
is modelled as an explicit `AppState` record; event handlers become pure
state-transition functions.  Timers created with `setTimeout` are modelled as
pending `Timer` values carried in the state; the browser's timer queue is
modelled by `fireTimer`, which removes a pending timer and performs its
callback's state mutations.  DOM geometry (`offsetTop` / `offsetHeight` of a
section's element, possibly absent) is an explicit parameter of type
`Geometry`.
-/

/-- Clinical modes, from `types.ts` / the keys of `MODES` in the source. -/
inductive ClinicalMode where
  | adult
  | obgyn
  | peds
deriving DecidableEq

/-- A section descriptor from the `SECTIONS` registry (icon omitted: JSX). -/
structure Sec where
  id : String
  title : String
deriving DecidableEq

/-- The `SECTIONS` registry, in source order (part_001 lines 46-54). -/
def SECTIONS : List Sec :=
  [ ⟨"identity", "Patient Context"⟩,
    ⟨"concern", "Chief Concern"⟩,
    ⟨"hpi", "History (HPI)"⟩,
    ⟨"ros", "Review of Systems"⟩,
    ⟨"background", "Background"⟩,
    ⟨"exam", "Examination"⟩,
    ⟨"plan", "Assessment & Plan"⟩ ]

/-- A raw text input as consumed by `parseFloat` plus JS truthiness:
`empty` is the empty string (falsy), `nonNumeric` a non-empty string that
parses to `NaN`, `num q` a non-empty string that parses to the number `q`. -/
inductive RawInput where
  | empty
  | nonNumeric
  | num (q : ℚ)
deriving DecidableEq

/-- Kind of a pending `setTimeout` callback in `scrollToSection`:
`nav id` is the outer 50 ms callback (locate the element, smooth-scroll to
it, schedule the settle timer); `settle` is the inner 800 ms callback that
clears `isManualScrolling`. -/
inductive TimerKind where
  | nav (id : String)
  | settle
deriving DecidableEq

/-- A pending timer: absolute fire time (ms) and the callback kind. -/
structure Timer where
  fire : ℕ
  kind : TimerKind
deriving DecidableEq

/-- Lookup `m[k]` with JS object semantics, on an association list (keys
unique by construction, as in a JS object). -/
def getKey : List (String × Bool) → String → Option Bool
  | [], _ => none
  | p :: rest, k => if p.1 = k then some p.2 else getKey rest k

/-- Update with JS object spread semantics: replaces the value at an
existing key in place, otherwise appends the new key at the end. -/
def setKey : List (String × Bool) → String → Bool → List (String × Bool)
  | [], k, v => [(k, v)]
  | p :: rest, k, v => if p.1 = k then (k, v) :: rest else p :: setKey rest k v

/-- DOM geometry: for a section id, `some (offsetTop, offsetHeight)` when
`document.getElementById` finds the element, else `none`. -/
abbrev Geometry : Type := String → Option (Int × Int)

/-- The component state of `App` (part_001 lines 77-93): the `useState`
cells, the `isManualScrolling` ref, and the pending `setTimeout` timers. -/
structure AppState where
  mode : ClinicalMode
  isDark : Bool
  expandedSections : List (String × Bool)
  activeSectionId : String
  showToast : Bool
  isSaving : Bool
  height : RawInput
  weight : RawInput
  bmi : Option String
  age : Option ℕ
  isManualScrolling : Bool
  timers : List Timer
deriving DecidableEq

/-- The initial state of `App` (part_001 lines 77-93). -/
def initialState : AppState where
  mode := .adult
  isDark := true
  expandedSections := [("concern", true), ("identity", true)]
  activeSectionId := "identity"
  showToast := false
  isSaving := false
  height := .empty
  weight := .empty
  bmi := none
  age := none
  isManualScrolling := false
  timers := []

/-- The loop body of `handleScroll` (part_001 lines 173-183): fold over
`SECTIONS`, overwriting `current` with the id of each section whose trigger
window contains the probe point `scrollY + 300`. -/
def computeActiveSection (geom : Geometry) (scrollY : Int) (init : String) : String :=
  SECTIONS.foldl (fun current s =>
    match geom s.id with
    | some (offsetTop, offsetHeight) =>
      let triggerPoint := scrollY + 300
      let adjustedTop := offsetTop - 140
      if triggerPoint ≥ adjustedTop ∧ triggerPoint < adjustedTop + offsetHeight + 100 then
        s.id
      else
        current
    | none => current) init

/-- The scroll-event handler `handleScroll` (part_001 lines 167-188): a no-op
while `isManualScrolling` is set, otherwise recompute the active section and
store it when it changed. -/
def handleScroll (geom : Geometry) (scrollY : Int) (s : AppState) : AppState :=
  if s.isManualScrolling then s
  else
    let current := computeActiveSection geom scrollY s.activeSectionId
    if current ≠ s.activeSectionId then { s with activeSectionId := current } else s

/-- `toggleSection` (part_001 lines 194-196): `!prev[id]` with a missing key
(`undefined`) negating to `true`. -/
def toggleSection (id : String) (s : AppState) : AppState :=
  { s with expandedSections :=
      setKey s.expandedSections id (!(getKey s.expandedSections id).getD false) }

/-- `scrollToSection` (part_001 lines 198-216), invoked at absolute time
`now`.  Synchronous part only: the early return on the already-active id,
then `isManualScrolling.current = true`, `setActiveSectionId(id)`,
`setExpandedSections(...)`, and scheduling the outer 50 ms timeout.  The
timeout callbacks themselves run later, via `fireTimer`. -/
def scrollToSection (now : ℕ) (id : String) (s : AppState) : AppState :=
  if s.activeSectionId = id then s
  else
    { s with
      isManualScrolling := true
      activeSectionId := id
      expandedSections := setKey s.expandedSections id true
      timers := s.timers ++ [⟨now + 50, .nav id⟩] }

/-- Firing a pending timer `t` (the browser removes it from the queue and
runs its callback).  A `nav id` callback (part_001 lines 203-215) looks the
element up: if found it issues the smooth scroll (an effect on the viewport,
outside this state) and schedules the 800 ms settle timer; if not found it
clears `isManualScrolling` at once.  A `settle` callback (lines 209-211)
clears `isManualScrolling`. -/
def fireTimer (geom : Geometry) (t : Timer) (s : AppState) : AppState :=
  match t.kind with
  | .nav id =>
    match geom id with
    | some _ => { s with timers := s.timers.erase t ++ [⟨t.fire + 800, .settle⟩] }
    | none => { s with isManualScrolling := false, timers := s.timers.erase t }
  | .settle => { s with isManualScrolling := false, timers := s.timers.erase t }

/-- One state mutation performed by `scrollToSection`, for reasoning about
the order of mutations inside a single navigation request. -/
inductive Mutation where
  | setSuppression (b : Bool)
  | setActive (id : String)
  | setExpanded (id : String) (b : Bool)
  | scheduleNavTimer (id : String)
deriving DecidableEq

/-- The sequence of state mutations `scrollToSection` performs, in program
order (part_001 lines 198-216: early return; `isManualScrolling.current =
true`; `setActiveSectionId(id)`; `setExpandedSections(...)`; `setTimeout`). -/
def scrollToSectionTrace (s : AppState) (id : String) : List Mutation :=
  if s.activeSectionId = id then []
  else
    [ .setSuppression true,
      .setActive id,
      .setExpanded id true,
      .scheduleNavTimer id ]

/-- Interpreting one mutation on the state (`now` is the time at which the
navigation request runs, used for the scheduled timer's fire time). -/
def applyMutation (now : ℕ) (s : AppState) : Mutation → AppState
  | .setSuppression b => { s with isManualScrolling := b }
  | .setActive id => { s with activeSectionId := id }
  | .setExpanded id b => { s with expandedSections := setKey s.expandedSections id b }
  | .scheduleNavTimer id => { s with timers := s.timers ++ [⟨now + 50, .nav id⟩] }

/-- `setMode(m)` from the mode segmented control (part_001 line 281). -/
def setModeEvent (m : ClinicalMode) (s : AppState) : AppState :=
  { s with mode := m }

/-- `Number.prototype.toFixed(1)` on a nonnegative value: round `q` to the
nearest tenth (ties away from zero, i.e. upward for the positive values this
is applied to) and render with exactly one digit after the point. -/
def toFixedOne (q : ℚ) : String :=
  let m := (round (q * 10) : ℤ).toNat
  toString (m / 10) ++ "." ++ toString (m % 10)

/-- The BMI effect body (part_001 lines 126-147): blank unless both raw
fields are non-empty and parse to numbers with nonzero height; then
`w / (h/100 * h/100)`, displayed to one decimal only when strictly between
0 and 100. -/
def computeBmi (height weight : RawInput) : Option String :=
  match height, weight with
  | .empty, _ => none
  | _, .empty => none
  | .nonNumeric, _ => none
  | _, .nonNumeric => none
  | .num h, .num w =>
    if h = 0 then none
    else
      let heightInMeters := h / 100
      let bmiValue := w / (heightInMeters * heightInMeters)
      if 0 < bmiValue ∧ bmiValue < 100 then some (toFixedOne bmiValue) else none

/-- `handleAgeBlur` (part_001 lines 156-164), at current year `currentYear`.
The age field holds `none` for the empty string, else its parsed integer
(`handleAgeChange` admits only digit strings, so `parseInt` yields exactly
the field's value). -/
def handleAgeBlur (currentYear : ℕ) (age : Option ℕ) : Option ℕ :=
  match age with
  | none => none
  | some n =>
    if 1900 < n ∧ n ≤ currentYear then some (currentYear - n) else some n

/-- The spec-side containment predicate: section `s`'s trigger window
`[offsetTop - 140, offsetTop - 140 + offsetHeight + 100)` contains the probe
point `scrollY + 300` (false when the section has no element). -/
def sectionHits (geom : Geometry) (scrollY : Int) (s : Sec) : Bool :=
  match geom s.id with
  | some (offsetTop, offsetHeight) =>
    decide (offsetTop - 140 ≤ scrollY + 300) &&
      decide (scrollY + 300 < offsetTop - 140 + offsetHeight + 100)
  | none => false

/-- Processing a burst of scroll events in sequence, counting how many of
them reach the recomputation loop of `handleScroll` (i.e. are not
short-circuited by the `isManualScrolling` guard — the only guard present in
the handler). -/
def runScrollBurst (geom : Geometry) (s : AppState) : List Int → AppState × ℕ
  | [] => (s, 0)
  | y :: rest =>
    let r := runScrollBurst geom (handleScroll geom y s) rest
    (r.1, (if s.isManualScrolling then 0 else 1) + r.2)

/-- A sample concrete geometry: all seven sections present, 500 px tall,
stacked contiguously from the top of the document. -/
def sampleGeom : Geometry := fun id =>
  if id = "identity" then some (0, 500)
  else if id = "concern" then some (500, 500)
  else if id = "hpi" then some (1000, 500)
  else if id = "ros" then some (1500, 500)
  else if id = "background" then some (2000, 500)
  else if id = "exam" then some (2500, 500)
  else if id = "plan" then some (3000, 500)
  else none

/-! ### Helper lemmas -/

lemma getKey_setKey_self (l : List (String × Bool)) (k : String) (v : Bool) :
    getKey (setKey l k v) k = some v := by
  induction l with
  | nil => simp [setKey, getKey]
  | cons p rest ih =>
    by_cases h : p.1 = k
    · simp [setKey, getKey, h]
    · simp [setKey, getKey, h, ih]

lemma getLast?_cons_map_getD {α β : Type} (a : α) (l : List α) (f : α → β) (init : β) :
    (((a :: l).getLast?).map f).getD init = ((l.getLast?).map f).getD (f a) := by
  induction l generalizing a init with
  | nil => simp
  | cons b t ih => rw [List.getLast?_cons_cons, ih b init, ih b (f a)]

/-- A left fold whose step keeps the accumulator except on elements
satisfying `p` computes `f` of the last element satisfying `p`, defaulting to
the initial accumulator. -/
lemma foldl_if_eq_getLast {α β : Type} (g : β → α → β) (p : α → Bool) (f : α → β)
    (hg : ∀ c a, g c a = if p a then f a else c) :
    ∀ (l : List α) (init : β),
      l.foldl g init = (((l.filter p).getLast?).map f).getD init := by
  intro l
  induction l with
  | nil => intro init; simp
  | cons a t ih =>
    intro init
    rw [List.foldl_cons, hg, List.filter_cons]
    by_cases h : p a
    · rw [if_pos h, if_pos h, ih, getLast?_cons_map_getD]
    · rw [if_neg h, if_neg h, ih]

/-- The loop of `handleScroll` computes the last section (in registry order)
whose trigger window contains the probe point, retaining `init` when there is
none. -/
lemma computeActiveSection_eq (geom : Geometry) (scrollY : Int) (init : String) :
    computeActiveSection geom scrollY init
      = (((SECTIONS.filter (sectionHits geom scrollY)).getLast?).map Sec.id).getD init := by
  unfold computeActiveSection
  apply foldl_if_eq_getLast
  intro c a
  unfold sectionHits
  cases hg : geom a.id with
  | none => simp
  | some v =>
    obtain ⟨t, ht⟩ := v
    by_cases h : scrollY + 300 ≥ t - 140 ∧ scrollY + 300 < t - 140 + ht + 100
    · simp [h, ge_iff_le, h.1, h.2]
    · rw [Classical.not_and_iff_or_not_not] at h
      rcases h with h | h <;> simp [ge_iff_le] at h <;> simp [h]

lemma handleScroll_frame (geom : Geometry) (y : Int) (s : AppState) :
    (handleScroll geom y s).isManualScrolling = s.isManualScrolling
    ∧ (handleScroll geom y s).expandedSections = s.expandedSections
    ∧ (handleScroll geom y s).timers = s.timers
    ∧ (handleScroll geom y s).mode = s.mode := by
  simp only [handleScroll]
  split_ifs <;> exact ⟨rfl, rfl, rfl, rfl⟩

lemma handleScroll_suppressed (geom : Geometry) (y : Int) (s : AppState)
    (h : s.isManualScrolling = true) : handleScroll geom y s = s := by
  unfold handleScroll
  rw [if_pos h]

lemma runScrollBurst_count (geom : Geometry) :
    ∀ (events : List Int) (s : AppState), s.isManualScrolling = false →
      (runScrollBurst geom s events).2 = events.length := by
  intro events
  induction events with
  | nil => intro s _; rfl
  | cons y rest ih =>
    intro s h
    have hpres : (handleScroll geom y s).isManualScrolling = false :=
      (handleScroll_frame geom y s).1.trans h
    simp [runScrollBurst, h, ih _ hpres, Nat.add_comm]

lemma scrollToSectionTrace_coherent (now : ℕ) (s : AppState) (id : String) :
    (scrollToSectionTrace s id).foldl (applyMutation now) s = scrollToSection now id s := by
  unfold scrollToSectionTrace scrollToSection
  by_cases h : s.activeSectionId = id
  · rw [if_pos h, if_pos h]; rfl
  · rw [if_neg h, if_neg h]; rfl

/-! ### Claim theorems -/

/-- C2: while observing (suppression flag false), a scroll event sets the
active section to the last section in registry (= document) order whose
trigger window `[offsetTop - 140, offsetTop - 140 + offsetHeight + 100)`
contains the probe point `scrollY + 300`; when no section's window contains
the probe point, the whole state — in particular the active section — is
retained unchanged. -/
theorem c2_scroll_recompute_rule (geom : Geometry) (y : Int) (s : AppState)
    (h : s.isManualScrolling = false) :
    (handleScroll geom y s).activeSectionId
      = ((((SECTIONS.filter (sectionHits geom y)).getLast?).map Sec.id).getD s.activeSectionId)
    ∧ (SECTIONS.filter (sectionHits geom y) = [] → handleScroll geom y s = s) := by
  constructor
  · simp only [handleScroll, h, Bool.false_eq_true, if_false]
    rw [← computeActiveSection_eq]
    by_cases hc : computeActiveSection geom y s.activeSectionId ≠ s.activeSectionId
    · rw [if_pos hc]
    · rw [if_neg hc]
      push_neg at hc
      exact hc.symm
  · intro hf
    simp only [handleScroll, h, Bool.false_eq_true, if_false]
    have hc : computeActiveSection geom y s.activeSectionId = s.activeSectionId := by
      rw [computeActiveSection_eq, hf]
      rfl
    simp [hc]

/-- Witness for C2 at a concrete geometry and scroll position: at
`scrollY = 600` the probe point lies in the windows of `concern` and `hpi`,
and the last of those, `hpi`, becomes active. -/
theorem c2_scroll_recompute_rule_witness :
    initialState.isManualScrolling = false
    ∧ (handleScroll sampleGeom 600 initialState).activeSectionId
        = ((((SECTIONS.filter (sectionHits sampleGeom 600)).getLast?).map Sec.id).getD
            initialState.activeSectionId)
    ∧ (handleScroll sampleGeom 600 initialState).activeSectionId = "hpi" :=
  ⟨rfl, (c2_scroll_recompute_rule sampleGeom 600 initialState rfl).1, by decide⟩

/-- C3: selecting a rail item `X` that is not the current active section
immediately (synchronously, before the scheduled scroll or settle timer run)
makes `X` active, forces `X`'s expansion entry to `true`, and raises the
suppression flag; and any scroll event processed while the suppression flag
is up leaves the state — in particular the active section — unchanged. -/
theorem c3_nav_optimistic_then_suppressed (now : ℕ) (X : String) (s : AppState)
    (h : s.activeSectionId ≠ X) :
    (scrollToSection now X s).activeSectionId = X
    ∧ getKey (scrollToSection now X s).expandedSections X = some true
    ∧ (scrollToSection now X s).isManualScrolling = true
    ∧ (∀ (geom : Geometry) (y : Int) (u : AppState),
        u.isManualScrolling = true → handleScroll geom y u = u)
    ∧ (∀ (geom : Geometry) (y : Int),
        handleScroll geom y (scrollToSection now X s) = scrollToSection now X s) := by
  unfold scrollToSection
  rw [if_neg h]
  exact ⟨rfl, getKey_setKey_self _ _ _, rfl,
    fun geom y u hu => handleScroll_suppressed geom y u hu,
    fun geom y => handleScroll_suppressed geom y _ rfl⟩

/-- Witness for C3: clicking `hpi` from the initial state (active
`identity`). -/
theorem c3_nav_optimistic_then_suppressed_witness :
    (scrollToSection 0 "hpi" initialState).activeSectionId = "hpi"
    ∧ getKey (scrollToSection 0 "hpi" initialState).expandedSections "hpi" = some true
    ∧ (scrollToSection 0 "hpi" initialState).isManualScrolling = true
    ∧ handleScroll sampleGeom 600 (scrollToSection 0 "hpi" initialState)
        = scrollToSection 0 "hpi" initialState := by
  obtain ⟨h1, h2, h3, _, h5⟩ :=
    c3_nav_optimistic_then_suppressed 0 "hpi" initialState (by decide)
  exact ⟨h1, h2, h3, h5 sampleGeom 600⟩

/-- C5 counterexample: the scroll handler has no rate limiter.  Two scroll
events processed back-to-back (hence within one display-refresh interval)
from the observing initial state each reach the recomputation — the count is
2, not at most 1 — and the second event is not dropped: it moves the active
section from `hpi` (where the first event put it) to `ros`. -/
theorem c5_counterexample :
    (runScrollBurst sampleGeom initialState [600, 1200]).2 = 2
    ∧ ¬ (runScrollBurst sampleGeom initialState [600, 1200]).2 ≤ 1
    ∧ (runScrollBurst sampleGeom initialState [600]).1.activeSectionId = "hpi"
    ∧ (runScrollBurst sampleGeom initialState [600, 1200]).1.activeSectionId = "ros" := by
  decide

/-- C5 as amended: the scroll-observation handler is not rate-limited — it
has no pending-callback guard — so every scroll event of a burst that
arrives while the suppression flag is down reaches the active-section
recomputation: the recomputation count equals the number of events.  (The
`requestAnimationFrame` pending-callback guard in the source belongs to the
mouse-move spotlight handler, not to `handleScroll`.) -/
theorem c5_no_rate_limiter (geom : Geometry) (events : List Int) (s : AppState)
    (h : s.isManualScrolling = false) :
    (runScrollBurst geom s events).2 = events.length :=
  runScrollBurst_count geom events s h

/-- Witness for C5 (amended): a three-event burst from the initial state
yields three recomputations. -/
theorem c5_no_rate_limiter_witness :
    initialState.isManualScrolling = false
    ∧ (runScrollBurst sampleGeom initialState [100, 700, 1900]).2 = 3 :=
  ⟨rfl, c5_no_rate_limiter sampleGeom [100, 700, 1900] initialState rfl⟩

/-- C7: age normalization at blur.  A blur with the field empty does
nothing; a parsed value `n` with `1900 < n ≤ currentYear` is replaced by
`currentYear - n` (so "1990" blurred in 2024 becomes 34); every other value
("34", "1899", boundary "1900") is left unchanged; and for present-era
current years a second blur never changes the field again (the conversion
happens at most once). -/
theorem c7_age_blur_rule :
    handleAgeBlur 2024 (some 1990) = some 34
    ∧ handleAgeBlur 2024 (some 34) = some 34
    ∧ handleAgeBlur 2024 (some 1899) = some 1899
    ∧ handleAgeBlur 2024 (some 1900) = some 1900
    ∧ (∀ cy : ℕ, handleAgeBlur cy none = none)
    ∧ (∀ cy n : ℕ, 1900 < n → n ≤ cy → handleAgeBlur cy (some n) = some (cy - n))
    ∧ (∀ cy n : ℕ, ¬(1900 < n ∧ n ≤ cy) → handleAgeBlur cy (some n) = some n)
    ∧ (∀ (cy : ℕ) (a : Option ℕ), cy ≤ 3801 →
        handleAgeBlur cy (handleAgeBlur cy a) = handleAgeBlur cy a) := by
  refine ⟨by decide, by decide, by decide, by decide, fun cy => rfl, ?_, ?_, ?_⟩
  · intro cy n h1 h2
    simp [handleAgeBlur, h1, h2]
  · intro cy n h
    simp only [handleAgeBlur]
    rw [if_neg h]
  · intro cy a hcy
    cases a with
    | none => rfl
    | some n =>
      by_cases h1 : 1900 < n ∧ n ≤ cy
      · have he : handleAgeBlur cy (some n) = some (cy - n) := by
          simp only [handleAgeBlur]
          rw [if_pos h1]
        have hng : ¬(1900 < cy - n ∧ cy - n ≤ cy) := by omega
        rw [he]
        simp only [handleAgeBlur]
        rw [if_neg hng]
      · have he : handleAgeBlur cy (some n) = some n := by
          simp only [handleAgeBlur]
          rw [if_neg h1]
        rw [he, he]

/-- Witness for C7: the conversion branch at current year 2024, entry 1990. -/
theorem c7_age_blur_rule_witness :
    handleAgeBlur 2024 (some 1990) = some (2024 - 1990) :=
  c7_age_blur_rule.2.2.2.2.2.1 2024 1990 (by norm_num) (by norm_num)

/-- C8: selecting the already-active rail item is a no-op: `scrollToSection`
returns the state unchanged (active section, expansion map, suppression flag
and the pending-timer queue all untouched) and its mutation trace is empty
(no scroll is requested, no timer scheduled). -/
theorem c8_nav_idempotent (now : ℕ) (id : String) (s : AppState)
    (h : s.activeSectionId = id) :
    scrollToSection now id s = s ∧ scrollToSectionTrace s id = [] := by
  unfold scrollToSection scrollToSectionTrace
  rw [if_pos h, if_pos h]
  exact ⟨rfl, rfl⟩

/-- Witness for C8: re-selecting `identity`, the initially active section. -/
theorem c8_nav_idempotent_witness :
    scrollToSection 7 "identity" initialState = initialState
    ∧ scrollToSectionTrace initialState "identity" = [] :=
  c8_nav_idempotent 7 "identity" initialState rfl

/-- C9: a mode change (to any of the three clinical modes) only replaces the
mode value: the active section, the expansion map, and every other state
cell are unchanged. -/
theorem c9_mode_change_frame (m : ClinicalMode) (s : AppState) :
    (setModeEvent m s).mode = m
    ∧ (setModeEvent m s).activeSectionId = s.activeSectionId
    ∧ (setModeEvent m s).expandedSections = s.expandedSections
    ∧ (setModeEvent m s).isManualScrolling = s.isManualScrolling
    ∧ (setModeEvent m s).timers = s.timers
    ∧ (setModeEvent m s).isDark = s.isDark
    ∧ (setModeEvent m s).showToast = s.showToast
    ∧ (setModeEvent m s).isSaving = s.isSaving
    ∧ (setModeEvent m s).height = s.height
    ∧ (setModeEvent m s).weight = s.weight
    ∧ (setModeEvent m s).bmi = s.bmi
    ∧ (setModeEvent m s).age = s.age :=
  ⟨rfl, rfl, rfl, rfl, rfl, rfl, rfl, rfl, rfl, rfl, rfl, rfl⟩

/-- C10: initially the expansion map holds exactly the entries `concern` and
`identity`, both `true` (every other registry section has no entry, i.e.
starts collapsed), and the active section is `identity`, the first id of the
registry. -/
theorem c10_initial_expansion_and_active :
    initialState.expandedSections = [("concern", true), ("identity", true)]
    ∧ getKey initialState.expandedSections "concern" = some true
    ∧ getKey initialState.expandedSections "identity" = some true
    ∧ initialState.activeSectionId = "identity"
    ∧ (SECTIONS.map Sec.id).head? = some initialState.activeSectionId
    ∧ (SECTIONS.all fun sec =>
        sec.id == "concern" || sec.id == "identity"
          || getKey initialState.expandedSections sec.id == none) = true := by
  decide

/-- C1 counterexample: rapid clicks on `hpi` (t = 0) then `ros` (t = 30,
well before `hpi`'s settle timeout).  The second navigation request leaves
the first request's pending timer in the queue instead of invalidating it,
and once both 50 ms callbacks have run (t = 80) two settle timers — not
exactly one — are outstanding, at t = 850 (from `hpi`'s request) and t = 880
(from `ros`'s request). -/
theorem c1_counterexample :
    (scrollToSection 30 "ros" (scrollToSection 0 "hpi" initialState)).timers
        = [⟨50, .nav "hpi"⟩, ⟨80, .nav "ros"⟩]
    ∧ (fireTimer sampleGeom ⟨80, .nav "ros"⟩
          (fireTimer sampleGeom ⟨50, .nav "hpi"⟩
            (scrollToSection 30 "ros" (scrollToSection 0 "hpi" initialState)))).timers
        = [⟨850, .settle⟩, ⟨880, .settle⟩]
    ∧ ¬ ((fireTimer sampleGeom ⟨80, .nav "ros"⟩
          (fireTimer sampleGeom ⟨50, .nav "hpi"⟩
            (scrollToSection 30 "ros" (scrollToSection 0 "hpi" initialState)))).timers.filter
              (fun t => t.kind == TimerKind.settle)).length = 1
    ∧ (fireTimer sampleGeom ⟨80, .nav "ros"⟩
          (fireTimer sampleGeom ⟨50, .nav "hpi"⟩
            (scrollToSection 30 "ros" (scrollToSection 0 "hpi" initialState)))).activeSectionId
        = "ros" := by
  decide

/-- C1 as amended: a navigation request never cancels a previously scheduled
timer, so two rapid rail clicks X then Y stack their timers: after both
50 ms navigation callbacks run, two settle timers are outstanding — X's at
`t0 + 850` and Y's at `t0 + d + 850`.  The final active section is Y and
suppression is in force, but it is X's earlier settle timer that fires first
and ends the suppression window (Y's then fires redundantly). -/
theorem c1_settle_timers_stack (geom : Geometry) (s : AppState) (X Y : String) (t0 d : ℕ)
    (hT : s.timers = []) (hX : s.activeSectionId ≠ X) (hXY : X ≠ Y) (hd : 0 < d)
    (hgX : (geom X).isSome) (hgY : (geom Y).isSome) :
    (scrollToSection (t0 + d) Y (scrollToSection t0 X s)).timers
        = [⟨t0 + 50, .nav X⟩, ⟨t0 + d + 50, .nav Y⟩]
    ∧ (fireTimer geom ⟨t0 + d + 50, .nav Y⟩
          (fireTimer geom ⟨t0 + 50, .nav X⟩
            (scrollToSection (t0 + d) Y (scrollToSection t0 X s)))).timers
        = [⟨t0 + 50 + 800, .settle⟩, ⟨t0 + d + 50 + 800, .settle⟩]
    ∧ (fireTimer geom ⟨t0 + d + 50, .nav Y⟩
          (fireTimer geom ⟨t0 + 50, .nav X⟩
            (scrollToSection (t0 + d) Y (scrollToSection t0 X s)))).activeSectionId = Y
    ∧ (fireTimer geom ⟨t0 + d + 50, .nav Y⟩
          (fireTimer geom ⟨t0 + 50, .nav X⟩
            (scrollToSection (t0 + d) Y (scrollToSection t0 X s)))).isManualScrolling = true
    ∧ t0 + 50 + 800 < t0 + d + 50 + 800
    ∧ (fireTimer geom ⟨t0 + 50 + 800, .settle⟩
          (fireTimer geom ⟨t0 + d + 50, .nav Y⟩
            (fireTimer geom ⟨t0 + 50, .nav X⟩
              (scrollToSection (t0 + d) Y (scrollToSection t0 X s))))).isManualScrolling
        = false := by
  obtain ⟨gX, hgX'⟩ := Option.isSome_iff_exists.mp hgX
  obtain ⟨gY, hgY'⟩ := Option.isSome_iff_exists.mp hgY
  refine ⟨?_, ?_, ?_, ?_, by omega, ?_⟩ <;>
    simp [scrollToSection, fireTimer, hT, hX, hXY, hgX', hgY', List.erase_cons_head]

/-- Witness for C1 (amended): the concrete rapid pair `exam` then `plan`
from the initial state, clicks 30 ms apart. -/
theorem c1_settle_timers_stack_witness :
    (scrollToSection (0 + 30) "plan" (scrollToSection 0 "exam" initialState)).timers
        = [⟨0 + 50, .nav "exam"⟩, ⟨0 + 30 + 50, .nav "plan"⟩]
    ∧ (fireTimer sampleGeom ⟨0 + 30 + 50, .nav "plan"⟩
          (fireTimer sampleGeom ⟨0 + 50, .nav "exam"⟩
            (scrollToSection (0 + 30) "plan" (scrollToSection 0 "exam" initialState)))).timers
        = [⟨0 + 50 + 800, .settle⟩, ⟨0 + 30 + 50 + 800, .settle⟩]
    ∧ (fireTimer sampleGeom ⟨0 + 30 + 50, .nav "plan"⟩
          (fireTimer sampleGeom ⟨0 + 50, .nav "exam"⟩
            (scrollToSection (0 + 30) "plan"
              (scrollToSection 0 "exam" initialState)))).activeSectionId = "plan"
    ∧ (fireTimer sampleGeom ⟨0 + 30 + 50, .nav "plan"⟩
          (fireTimer sampleGeom ⟨0 + 50, .nav "exam"⟩
            (scrollToSection (0 + 30) "plan"
              (scrollToSection 0 "exam" initialState)))).isManualScrolling = true
    ∧ 0 + 50 + 800 < 0 + 30 + 50 + 800
    ∧ (fireTimer sampleGeom ⟨0 + 50 + 800, .settle⟩
          (fireTimer sampleGeom ⟨0 + 30 + 50, .nav "plan"⟩
            (fireTimer sampleGeom ⟨0 + 50, .nav "exam"⟩
              (scrollToSection (0 + 30) "plan"
                (scrollToSection 0 "exam" initialState))))).isManualScrolling = false :=
  c1_settle_timers_stack sampleGeom initialState "exam" "plan" 0 30 rfl
    (by decide) (by decide) (by decide) (by decide) (by decide)

/-- C4 counterexample: in the mutation trace of a navigation request the
suppression flag is set at index 0 and the optimistic active-section update
happens at index 1, so the active-section update does not precede the
setting of the suppression flag. -/
theorem c4_counterexample :
    ¬ ((scrollToSectionTrace initialState "hpi").indexOf (.setActive "hpi")
        < (scrollToSectionTrace initialState "hpi").indexOf (.setSuppression true))
    ∧ (scrollToSectionTrace initialState "hpi").indexOf (.setSuppression true) = 0
    ∧ (scrollToSectionTrace initialState "hpi").indexOf (.setActive "hpi") = 1 := by
  decide

/-- C4 as amended: within every effective navigation request the mutations
run in the order `isManualScrolling := true` first, optimistic active-section
update second — i.e. the suppression flag is raised strictly before the
active id is updated (which equally ensures a recomputation sneaking in
between them is ignored); and the trace is faithful: replaying it yields
exactly `scrollToSection`. -/
theorem c4_suppression_set_before_active (now : ℕ) (s : AppState) (id : String)
    (h : s.activeSectionId ≠ id) :
    (scrollToSectionTrace s id).indexOf (.setSuppression true)
      < (scrollToSectionTrace s id).indexOf (.setActive id)
    ∧ (scrollToSectionTrace s id).foldl (applyMutation now) s = scrollToSection now id s := by
  refine ⟨?_, scrollToSectionTrace_coherent now s id⟩
  unfold scrollToSectionTrace
  rw [if_neg h]
  rw [List.indexOf_cons_self,
    List.indexOf_cons_ne _ (fun hh => Mutation.noConfusion hh),
    List.indexOf_cons_self]
  exact Nat.zero_lt_one

/-- Witness for C4 (amended): the navigation request for `ros` from the
initial state. -/
theorem c4_suppression_set_before_active_witness :
    (scrollToSectionTrace initialState "ros").indexOf (.setSuppression true)
      < (scrollToSectionTrace initialState "ros").indexOf (.setActive "ros")
    ∧ (scrollToSectionTrace initialState "ros").foldl (applyMutation 5) initialState
        = scrollToSection 5 "ros" initialState :=
  c4_suppression_set_before_active 5 initialState "ros" (by decide)

/-- C6: the BMI display.  Blank whenever either raw field is empty; for
numeric fields with nonzero height the value `w / (h/100)²` is shown rounded
to one decimal exactly when it lies strictly between 0 and 100, and is blank
otherwise.  Concretely: height 180 / weight 70 shows "21.6", an empty height
with weight 70 is blank, and height 0 with weight 70 is blank. -/
theorem c6_bmi_rule :
    computeBmi (.num 180) (.num 70) = some "21.6"
    ∧ computeBmi .empty (.num 70) = none
    ∧ computeBmi (.num 0) (.num 70) = none
    ∧ (∀ w : RawInput, computeBmi .empty w = none)
    ∧ (∀ h : RawInput, computeBmi h .empty = none)
    ∧ (∀ hq wq : ℚ, hq ≠ 0 → 0 < wq / (hq / 100) ^ 2 → wq / (hq / 100) ^ 2 < 100 →
        computeBmi (.num hq) (.num wq) = some (toFixedOne (wq / (hq / 100) ^ 2)))
    ∧ (∀ hq wq : ℚ, hq ≠ 0 → ¬(0 < wq / (hq / 100) ^ 2 ∧ wq / (hq / 100) ^ 2 < 100) →
        computeBmi (.num hq) (.num wq) = none) := by
  have hval : (70:ℚ) / (180 / 100 * (180 / 100)) = 17500 / 81 / 10 := by norm_num
  have h216 : round ((17500:ℚ) / 81 / 10 * 10) = 216 := by
    rw [round_eq]
    norm_num
  refine ⟨?_, rfl, ?_, ?_, ?_, ?_, ?_⟩
  · simp only [computeBmi]
    rw [if_neg (by norm_num : (180:ℚ) ≠ 0), if_pos (by constructor <;> norm_num)]
    simp only [hval, toFixedOne, h216]
    decide
  · simp [computeBmi]
  · intro w
    cases w <;> rfl
  · intro h
    cases h <;> rfl
  · intro hq wq hne h0 h100
    rw [pow_two] at h0 h100 ⊢
    simp only [computeBmi]
    rw [if_neg hne, if_pos ⟨h0, h100⟩]
  · intro hq wq hne hout
    rw [pow_two] at hout
    simp only [computeBmi]
    rw [if_neg hne, if_neg hout]

/-- Witness for C6 at height 160 cm, weight 60 kg (BMI 23.4375, in range). -/
theorem c6_bmi_rule_witness :
    computeBmi (.num 160) (.num 60)
      = some (toFixedOne ((60:ℚ) / ((160:ℚ) / 100) ^ 2)) :=
  c6_bmi_rule.2.2.2.2.2.1 160 60 (by norm_num) (by norm_num) (by norm_num)

